import Mathlib

/-
Verification of the cart engine, checkout flow, session restore, and payment
status polling machine of the food-ordering frontend (frontend/src/App.js),
as a shallow embedding in Lean 4.

Conventions of the embedding:
- JavaScript numbers used as quantities and prices are modelled as Int
  (no arithmetic performed here overflows or uses fractional values).
- React state is modelled by explicit state passing: each event handler is a
  function from the pre-state to the post-state.  Within one handler, the
  functional setState updates of App.js compose sequentially, which is the
  React batching semantics for a single event.
- The string-or-null values of JavaScript are modelled as Option String; their
  use in boolean position follows the JavaScript truthiness rule (null and the
  empty string are falsy), made explicit in jsTruthy below.
-/

namespace FoodApp

/-! ## Cart engine (App.js lines 51-109, CartProvider) -/

/-- A menu item as passed to addToCart: fields id, name, price, restaurant_id
of the MenuItem objects served by the backend. -/
structure FoodItem where
  id : Nat
  name : String
  price : Int
  restaurant_id : String
deriving DecidableEq, Repr

/-- One line of the cart, as built at App.js lines 72-78. -/
structure CartLine where
  food_item_id : Nat
  quantity : Int
  name : String
  price : Int
  restaurant_id : String
deriving DecidableEq, Repr

/-- The CartProvider state: the cart array (line 52) and the
currentRestaurant string-or-null (line 53). -/
structure CartState where
  cart : List CartLine
  currentRestaurant : Option String
deriving DecidableEq, Repr

/-- Initial CartProvider state: useState([]) and useState(null). -/
def initialCartState : CartState := ⟨[], none⟩

/-- JavaScript truthiness of a string-or-null value: null and the empty
string are falsy, every other string is truthy.  This is the semantics of
the guard `currentRestaurant && ...` at App.js line 57. -/
def jsTruthy : Option String → Bool
  | none => false
  | some s => s != ""

/-- addToCart (App.js lines 55-81).  If currentRestaurant is truthy and
differs from the restaurant of the incoming item, the cart is cleared first
(lines 57-59); then currentRestaurant is set to the restaurant of the item
(line 61); then the cart either increments the quantity of an existing line
with the same food_item_id or appends a new line capturing the name, price
and restaurant of the incoming item (lines 63-80). -/
def addToCart (st : CartState) (foodItem : FoodItem) (quantity : Int) : CartState :=
  let cleared : List CartLine :=
    if jsTruthy st.currentRestaurant && (st.currentRestaurant != some foodItem.restaurant_id) then
      []
    else
      st.cart
  let newCart : List CartLine :=
    if cleared.any (fun item => item.food_item_id == foodItem.id) then
      cleared.map (fun item =>
        if item.food_item_id == foodItem.id then
          { item with quantity := item.quantity + quantity }
        else
          item)
    else
      cleared ++ [⟨foodItem.id, quantity, foodItem.name, foodItem.price, foodItem.restaurant_id⟩]
  ⟨newCart, some foodItem.restaurant_id⟩

/-- removeFromCart (App.js lines 83-85): keep every line whose food_item_id
differs from the given one; currentRestaurant is not touched. -/
def removeFromCart (st : CartState) (foodItemId : Nat) : CartState :=
  { st with cart := st.cart.filter (fun item => item.food_item_id != foodItemId) }

/-- updateQuantity (App.js lines 87-100): a quantity of at most 0 delegates
to removeFromCart; otherwise the matching line gets exactly the new
quantity; currentRestaurant is not touched. -/
def updateQuantity (st : CartState) (foodItemId : Nat) (quantity : Int) : CartState :=
  if quantity ≤ 0 then
    removeFromCart st foodItemId
  else
    { st with cart := st.cart.map (fun item =>
        if item.food_item_id == foodItemId then
          { item with quantity := quantity }
        else
          item) }

/-- clearCart (App.js lines 102-105): empties the cart and resets
currentRestaurant to null. -/
def clearCart (_st : CartState) : CartState := ⟨[], none⟩

/-- Folding a sequence of addToCart calls (item, quantity) over the initial
empty cart state. -/
def applyAdds (ops : List (FoodItem × Int)) : CartState :=
  ops.foldl (fun st p => addToCart st p.1 p.2) initialCartState

/-! ## Payment status polling machine (App.js lines 693-734, OrderSuccess)

The OrderSuccess screen holds a paymentStatus state (line 695, initially
the string checking) and a recursive polling function checkPaymentStatus
(lines 709-734).  The recursion goes through setTimeout (line 729), so we
embed it operationally: a World records the component state together with
the at most one pending timer and the count of status queries issued so
far; checkPaymentStatus is one invocation of the function of lines 709-734,
and fireTimer is the browser delivering a due timer callback.  The backend
is abstracted as a response oracle indexed by the attempts argument of the
query (the attempts values of successive queries in a run are 0, 1, 2, ...,
so the oracle determines every response of the run).  The session id is
fixed throughout a run and therefore not modelled. -/

/-- The paymentStatus values the component assigns (App.js lines 695, 713,
721, 724, 732). -/
inductive PaymentStatus
  | checking
  | success
  | failed
  | timeout
  | error
deriving DecidableEq, Repr

/-- Outcome of one GET /payments/status query: a transport failure (the
promise rejects, line 730) or a response carrying the payment_status and
status fields read at lines 720 and 723. -/
inductive QueryResult
  | failure
  | ok (payment_status : String) (status : String)
deriving DecidableEq, Repr

/-- A response that resolves nothing: not a transport failure, payment not
paid and session not expired, so the code falls through to line 729. -/
def stillOpen : QueryResult → Bool
  | .failure => false
  | .ok payment_status status => payment_status != "paid" && status != "expired"

/-- State of the OrderSuccess screen together with its scheduling context:
the paymentStatus React state, the at most one pending setTimeout callback
(delay in ms and the attempts argument it will pass), the number of status
queries issued so far, and whether the component is still mounted. -/
structure World where
  paymentStatus : PaymentStatus
  pendingTimer : Option (Nat × Nat)
  queriesIssued : Nat
  mounted : Bool
deriving DecidableEq, Repr

/-- maxAttempts (App.js line 710). -/
def maxAttempts : Nat := 5

/-- One invocation of checkPaymentStatus (App.js lines 709-734) with the
given attempts argument.  If attempts has reached maxAttempts the status
becomes timeout and no query is issued (lines 712-715).  Otherwise a query
is issued (line 718, counted here); on transport failure the status becomes
error (lines 730-733); on payment_status paid it becomes success (lines
720-722); otherwise on status expired it becomes failed (lines 723-726);
otherwise a single setTimeout for 2000 ms with attempts + 1 is scheduled
(line 729). -/
def checkPaymentStatus (resp : Nat → QueryResult) (attempts : Nat) (w : World) : World :=
  if maxAttempts ≤ attempts then
    { w with paymentStatus := .timeout }
  else
    match resp attempts with
    | .failure =>
        { w with queriesIssued := w.queriesIssued + 1, paymentStatus := .error }
    | .ok payment_status status =>
        if payment_status == "paid" then
          { w with queriesIssued := w.queriesIssued + 1, paymentStatus := .success }
        else if status == "expired" then
          { w with queriesIssued := w.queriesIssued + 1, paymentStatus := .failed }
        else
          { w with queriesIssued := w.queriesIssued + 1,
                   pendingTimer := some (2000, attempts + 1) }

/-- The browser delivering a due timer: the pending callback, if any, is
removed from the queue and runs checkPaymentStatus with the attempts value
it captured (App.js line 729).  Nothing in the code consults the mounted
flag or cancels the timer: the useEffect of lines 699-707 returns no
cleanup function and the setTimeout id of line 729 is discarded, so the
callback runs whether or not the component is still mounted. -/
def fireTimer (resp : Nat → QueryResult) (w : World) : World :=
  match w.pendingTimer with
  | none => w
  | some (_, attempts) => checkPaymentStatus resp attempts { w with pendingTimer := none }

/-- World at mount time: paymentStatus is checking (line 695), no timer,
no query yet. -/
def initialWorld : World := ⟨.checking, none, 0, true⟩

/-- The useEffect of lines 699-707 with a session id present: it calls
checkPaymentStatus(sessionId, 0) on the freshly mounted world.  (It also
calls clearCart, which acts on the cart state, not on this World.) -/
def startPolling (resp : Nat → QueryResult) : World :=
  checkPaymentStatus resp 0 initialWorld

/-- The run of the polling machine: the world after the initial invocation
followed by n timer deliveries. -/
def pollRun (resp : Nat → QueryResult) : Nat → World
  | 0 => startPolling resp
  | n + 1 => fireTimer resp (pollRun resp n)

/-- Component teardown (the user navigates away).  Faithful to the source:
the mounted flag flips, but the pending timer survives, because the
useEffect of lines 699-707 returns no cleanup function and no clearTimeout
exists anywhere in App.js. -/
def unmount (w : World) : World := { w with mounted := false }

/-- The four terminal payment statuses. -/
def isTerminal : PaymentStatus → Bool
  | .checking => false
  | _ => true

/-! ## Session restore (App.js lines 11-22, AuthProvider) -/

/-- Characters that can begin a JSON document (ignoring leading
whitespace): a digit, a sign, a quote, an opening bracket or brace, or the
first letter of true, false or null.  JSON.parse throws a SyntaxError on
any input whose first character is not one of these; this necessary
condition is all the JSON.parse model below needs, and it is exact on every
string appearing in this file. -/
def canStartJson (c : Char) : Bool :=
  c.isDigit || c == '-' || c == '"' || c == '[' || c == '\x7b' ||
  c == 't' || c == 'f' || c == 'n' || c.isWhitespace

/-- Model of the JSON.parse builtin, restricted to what the claim needs:
parsing fails (throws) at least when the first character cannot begin a
JSON document; when parsing is modelled as succeeding, the parsed identity
record is kept opaque as the raw text. -/
def jsonParse (s : String) : Except Unit String :=
  match s.data with
  | [] => .error ()
  | c :: _ => if canStartJson c then .ok s else .error ()

/-- Outcome of the restore effect: either it completes, leaving the user
state either unset or set to the (opaque) parsed identity, or an exception
escapes to the caller. -/
inductive RestoreOutcome
  | ok (user : Option String)
  | thrown
deriving DecidableEq, Repr

/-- The restore effect of AuthProvider (App.js lines 15-22): read the
persisted value under the storage key (null when absent); if it is truthy,
JSON.parse it and store the result with setUser.  JSON.parse is unguarded:
if it throws, the exception escapes the effect.  The empty string is falsy
in the guard of line 18, so it is treated as absent. -/
def restore (savedUser : Option String) : RestoreOutcome :=
  match savedUser with
  | none => .ok none
  | some s =>
      if s != "" then
        match jsonParse s with
        | .ok u => .ok (some u)
        | .error _ => .thrown
      else
        .ok none

/-! ## Checkout submission (App.js lines 594-639, CheckoutModal) -/

/-- The two backend calls handleCheckout can issue, with the request bodies
built at lines 609-617 and 623-626. -/
inductive BackendRequest
  | postOrders (user_id : String) (restaurant_id : Option String)
      (items : List (Nat × Int)) (delivery_address : String)
  | postPaymentsCheckout (order_id : String)
deriving DecidableEq, Repr

/-- Observable outcome of handleCheckout: rejected by the address guard
before any request (lines 601-604), failed in the catch branch after the
listed requests were issued (lines 633-638), or redirected to the payment
processor after both requests succeeded (line 631). -/
inductive CheckoutEffect
  | rejectedNoAddress
  | failedAfter (sent : List BackendRequest)
  | redirected (sent : List BackendRequest) (url : String)
deriving DecidableEq, Repr

/-- The requests a CheckoutEffect says were issued. -/
def CheckoutEffect.sentRequests : CheckoutEffect → List BackendRequest
  | .rejectedNoAddress => []
  | .failedAfter sent => sent
  | .redirected sent _ => sent

/-- Model of the trim method of JavaScript strings: remove leading and
trailing whitespace.  Implemented over the character list so that it
computes by kernel reduction. -/
def jsTrim (s : String) : String :=
  ⟨((s.data.dropWhile Char.isWhitespace).reverse.dropWhile Char.isWhitespace).reverse⟩

/-- handleCheckout (App.js lines 600-639).  The address guard of lines
601-604 returns before any network call when the trimmed address is empty
(JavaScript truthiness of the trimmed string).  Otherwise POST /orders is
issued with the order data of lines 609-617; if it fails, the catch branch
runs (alert, no state change).  On success POST /payments/checkout is
issued with the returned order id; if it fails, the catch branch runs; on
success the browser is redirected to the returned url.  The two backend
responses are oracles: an error value models a rejected promise.  The
function never touches the cart state, which is returned unchanged on
every path. -/
def handleCheckout (address : String) (user_id : String) (st : CartState)
    (orderResp : Except Unit String) (checkoutResp : Except Unit String) :
    CheckoutEffect × CartState :=
  if jsTrim address == "" then
    (.rejectedNoAddress, st)
  else
    let orderReq := BackendRequest.postOrders user_id st.currentRestaurant
      (st.cart.map (fun item => (item.food_item_id, item.quantity))) address
    match orderResp with
    | .error _ => (.failedAfter [orderReq], st)
    | .ok orderId =>
        match checkoutResp with
        | .error _ => (.failedAfter [orderReq, .postPaymentsCheckout orderId], st)
        | .ok url => (.redirected [orderReq, .postPaymentsCheckout orderId] url, st)

/-! ## Helper lemmas about the polling machine -/

/-- A still-open response below the attempt bound schedules one more timer
and changes nothing else but the query count. -/
theorem checkPaymentStatus_stillOpen (resp : Nat → QueryResult) (a : Nat) (w : World)
    (h : stillOpen (resp a) = true) (ha : a < maxAttempts) :
    checkPaymentStatus resp a w =
      { w with queriesIssued := w.queriesIssued + 1, pendingTimer := some (2000, a + 1) } := by
  unfold checkPaymentStatus
  rw [if_neg (Nat.not_le.mpr ha)]
  cases hr : resp a with
  | failure => rw [hr] at h; simp [stillOpen] at h
  | ok payment_status status =>
      rw [hr] at h
      simp only [stillOpen, Bool.and_eq_true, bne_iff_ne, ne_eq] at h
      simp [beq_iff_eq, h.1, h.2]

/-- Reaching the attempt bound sets timeout and issues no query. -/
theorem checkPaymentStatus_atBound (resp : Nat → QueryResult) (a : Nat) (w : World)
    (ha : maxAttempts ≤ a) :
    checkPaymentStatus resp a w = { w with paymentStatus := .timeout } := by
  unfold checkPaymentStatus
  rw [if_pos ha]

/-- With no pending timer nothing happens when the browser looks for due
timers. -/
theorem fireTimer_none (resp : Nat → QueryResult) (w : World)
    (h : w.pendingTimer = none) : fireTimer resp w = w := by
  unfold fireTimer
  rw [h]

/-- Worlds arising in a run: either no timer is pending, or the machine is
still in the checking state. -/
def goodWorld (w : World) : Prop :=
  w.pendingTimer = none ∨ w.paymentStatus = .checking

/-- One invocation, entered with no pending timer while checking, yields a
good world: every branch that sets a terminal status leaves no timer, and
the one branch that sets a timer leaves the status at checking. -/
theorem checkPaymentStatus_good (resp : Nat → QueryResult) (a : Nat) (w : World)
    (hw : w.pendingTimer = none) (hs : w.paymentStatus = .checking) :
    goodWorld (checkPaymentStatus resp a w) := by
  unfold checkPaymentStatus goodWorld
  by_cases hm : maxAttempts ≤ a
  · rw [if_pos hm]; exact Or.inl hw
  · rw [if_neg hm]
    cases hr : resp a with
    | failure => exact Or.inl hw
    | ok payment_status status =>
        by_cases hp : (payment_status == "paid") = true
        · simp only [hp, if_true]; exact Or.inl hw
        · by_cases he : (status == "expired") = true
          · simp only [hp, if_false, he, if_true]; exact Or.inl hw
          · simp only [hp, if_false, he]; exact Or.inr hs

/-- Timer delivery preserves goodness. -/
theorem fireTimer_good (resp : Nat → QueryResult) (w : World)
    (h : goodWorld w) : goodWorld (fireTimer resp w) := by
  unfold fireTimer
  cases ht : w.pendingTimer with
  | none => exact h
  | some p =>
      obtain ⟨d, a⟩ := p
      have hs : w.paymentStatus = .checking := by
        rcases h with h | h
        · rw [h] at ht; cases ht
        · exact h
      exact checkPaymentStatus_good resp a _ rfl hs

/-- Every world of a run is good. -/
theorem pollRun_good (resp : Nat → QueryResult) : ∀ n, goodWorld (pollRun resp n) := by
  intro n
  induction n with
  | zero => exact checkPaymentStatus_good resp 0 initialWorld rfl rfl
  | succ n ih => exact fireTimer_good resp _ ih

/-- Under a never-resolving oracle, the first maxAttempts worlds of the run
are still checking, carry the timer for the next attempt, and have issued
one query per attempt so far. -/
theorem pollRun_stillOpen (resp : Nat → QueryResult)
    (hresp : ∀ n, stillOpen (resp n) = true) :
    ∀ n, n < maxAttempts →
      pollRun resp n = ⟨.checking, some (2000, n + 1), n + 1, true⟩ := by
  intro n
  induction n with
  | zero =>
      intro _
      show checkPaymentStatus resp 0 initialWorld = _
      rw [checkPaymentStatus_stillOpen resp 0 initialWorld (hresp 0) (by decide)]
      rfl
  | succ n ih =>
      intro h
      show fireTimer resp (pollRun resp n) = _
      rw [ih (by omega)]
      show checkPaymentStatus resp (n + 1) _ = _
      rw [checkPaymentStatus_stillOpen resp (n + 1) _ (hresp (n + 1)) h]

/-- Claim C1: for a payment session whose status query always returns a
still-open result, the polling machine started at attempt counter 0 issues
at most 5 status queries in total, and from the fifth timer delivery on it
sits in the terminal timeout state with exactly 5 queries issued, no
pending timer, and hence no further query. -/
theorem C1_polling_bounded (resp : Nat → QueryResult)
    (hresp : ∀ n, stillOpen (resp n) = true) :
    (∀ n, (pollRun resp n).queriesIssued ≤ 5) ∧
    (∀ k, pollRun resp (5 + k) = ⟨.timeout, none, 5, true⟩) := by
  have h4 : pollRun resp 4 = ⟨.checking, some (2000, 5), 5, true⟩ :=
    pollRun_stillOpen resp hresp 4 (by decide)
  have h5 : pollRun resp 5 = ⟨.timeout, none, 5, true⟩ := by
    show fireTimer resp (pollRun resp 4) = _
    rw [h4]
    show checkPaymentStatus resp 5 _ = _
    rw [checkPaymentStatus_atBound resp 5 _ (by decide)]
  have hstab : ∀ k, pollRun resp (5 + k) = ⟨.timeout, none, 5, true⟩ := by
    intro k
    induction k with
    | zero => exact h5
    | succ k ih =>
        show fireTimer resp (pollRun resp (5 + k)) = _
        rw [ih, fireTimer_none resp _ rfl]
  refine ⟨?_, hstab⟩
  intro n
  rcases Nat.lt_or_ge n 5 with hn | hn
  · rw [pollRun_stillOpen resp hresp n (by simpa [maxAttempts] using hn)]
    show n + 1 ≤ 5
    omega
  · obtain ⟨k, rfl⟩ : ∃ k, n = 5 + k := ⟨n - 5, by omega⟩
    rw [hstab k]

/-- Constant still-open oracle: the session never resolves. -/
def respOpen : Nat → QueryResult := fun _ => .ok "pending" "open"

/-- Witness for C1 at the constant still-open oracle. -/
theorem C1_polling_bounded_witness :
    (pollRun respOpen 9).queriesIssued ≤ 5 ∧
    pollRun respOpen (5 + 2) = ⟨.timeout, none, 5, true⟩ :=
  ⟨(C1_polling_bounded respOpen (fun _ => rfl)).1 9,
   (C1_polling_bounded respOpen (fun _ => rfl)).2 2⟩

/-- Claim C3: one invocation of checkPaymentStatus below the attempt bound,
given the response of the status query: a transport failure sets the
terminal error status immediately; a paid payment_status sets the terminal
success status; otherwise an expired status sets the terminal failed
status; otherwise exactly one further query is scheduled, as the single
pending 2000 ms timer carrying attempt counter a + 1, with every other
component of the state unchanged. -/
theorem C3_poll_step (resp : Nat → QueryResult) (a : Nat) (w : World)
    (ha : a < maxAttempts) :
    (resp a = .failure →
      checkPaymentStatus resp a w =
        { w with queriesIssued := w.queriesIssued + 1, paymentStatus := .error }) ∧
    (∀ payment_status status, resp a = .ok payment_status status →
      (payment_status = "paid" →
        checkPaymentStatus resp a w =
          { w with queriesIssued := w.queriesIssued + 1, paymentStatus := .success }) ∧
      (payment_status ≠ "paid" → status = "expired" →
        checkPaymentStatus resp a w =
          { w with queriesIssued := w.queriesIssued + 1, paymentStatus := .failed }) ∧
      (payment_status ≠ "paid" → status ≠ "expired" →
        checkPaymentStatus resp a w =
          { w with queriesIssued := w.queriesIssued + 1,
                   pendingTimer := some (2000, a + 1) })) := by
  constructor
  · intro hr
    unfold checkPaymentStatus
    rw [if_neg (Nat.not_le.mpr ha), hr]
  · intro payment_status status hr
    refine ⟨?_, ?_, ?_⟩
    · intro hp
      unfold checkPaymentStatus
      rw [if_neg (Nat.not_le.mpr ha), hr]
      simp [beq_iff_eq, hp]
    · intro hp he
      unfold checkPaymentStatus
      rw [if_neg (Nat.not_le.mpr ha), hr]
      simp [beq_iff_eq, hp, he]
    · intro hp he
      unfold checkPaymentStatus
      rw [if_neg (Nat.not_le.mpr ha), hr]
      simp [beq_iff_eq, hp, he]

/-- Constant paid oracle. -/
def respPaid : Nat → QueryResult := fun _ => .ok "paid" "open"

/-- Witness for C3: at attempt 0 a paid response moves the freshly mounted
world to terminal success with one query issued. -/
theorem C3_poll_step_witness :
    checkPaymentStatus respPaid 0 initialWorld =
      { initialWorld with
          queriesIssued := initialWorld.queriesIssued + 1,
          paymentStatus := .success } :=
  ((C3_poll_step respPaid 0 initialWorld (by decide)).2 "paid" "open" rfl).1 rfl

/-- Claim C4: once a run is in a terminal payment status, every later world
of the run is identical, so no transition leaves the state and no further
status query is issued. -/
theorem C4_terminal_stable (resp : Nat → QueryResult) (n : Nat)
    (h : isTerminal (pollRun resp n).paymentStatus = true) :
    ∀ k, pollRun resp (n + k) = pollRun resp n := by
  have hnone : (pollRun resp n).pendingTimer = none := by
    rcases pollRun_good resp n with h1 | h1
    · exact h1
    · rw [h1] at h; simp [isTerminal] at h
  intro k
  induction k with
  | zero => rfl
  | succ k ih =>
      show fireTimer resp (pollRun resp (n + k)) = _
      rw [ih, fireTimer_none resp _ hnone]

/-- Witness for C4: under the constant paid oracle the run is terminal
already at index 0, and the world two timer deliveries later is the same
world. -/
theorem C4_terminal_stable_witness :
    pollRun respPaid (0 + 2) = pollRun respPaid 0 :=
  C4_terminal_stable respPaid 0 (by decide) 2

/-- Claim C6 (failing-input evaluation): tearing the screen down while the
2000 ms re-query timer is pending does not cancel the timer, because the
useEffect of App.js lines 699-707 returns no cleanup function and no
clearTimeout exists in the file; when the scheduler then fires the timer, a
further status query is issued and the machine state changes although the
owning component is unmounted. -/
theorem C6_dangling_timer_fires :
    (unmount (pollRun respOpen 0)).mounted = false ∧
    (unmount (pollRun respOpen 0)).pendingTimer = some (2000, 1) ∧
    (fireTimer respOpen (unmount (pollRun respOpen 0))).queriesIssued =
      (pollRun respOpen 0).queriesIssued + 1 ∧
    (fireTimer respOpen (unmount (pollRun respOpen 0))).mounted = false := by
  refine ⟨rfl, rfl, rfl, rfl⟩

/-! ## Cart claims -/

/-- Strengthened single-restaurant invariant: every line carries the
restaurant of the current-restaurant reference, and that reference is never
the (falsy) empty string. -/
def cartConsistent (st : CartState) : Prop :=
  (∀ l ∈ st.cart, some l.restaurant_id = st.currentRestaurant) ∧
    st.currentRestaurant ≠ some ""

/-- Characterization of addToCart in the clearing case: a truthy current
restaurant different from that of the item empties the cart first, so the
result is the single new line. -/
theorem addToCart_clear_case (st : CartState) (item : FoodItem) (q : Int)
    (hb : (jsTruthy st.currentRestaurant &&
      (st.currentRestaurant != some item.restaurant_id)) = true) :
    addToCart st item q =
      ⟨[⟨item.id, q, item.name, item.price, item.restaurant_id⟩],
        some item.restaurant_id⟩ := by
  unfold addToCart
  rw [hb]
  rfl

/-- Characterization of addToCart in the non-clearing case with an existing
line for the item: only the quantity of that line changes. -/
theorem addToCart_existing_case (st : CartState) (item : FoodItem) (q : Int)
    (hb : (jsTruthy st.currentRestaurant &&
      (st.currentRestaurant != some item.restaurant_id)) = false)
    (hex : (st.cart.any (fun x => x.food_item_id == item.id)) = true) :
    addToCart st item q =
      ⟨st.cart.map (fun x =>
          if x.food_item_id == item.id then { x with quantity := x.quantity + q } else x),
        some item.restaurant_id⟩ := by
  unfold addToCart
  rw [hb]
  show (⟨if st.cart.any (fun x => x.food_item_id == item.id) then _ else _, _⟩ : CartState) = _
  rw [hex]
  rfl

/-- Characterization of addToCart in the non-clearing case with no existing
line for the item: the new line is appended. -/
theorem addToCart_append_case (st : CartState) (item : FoodItem) (q : Int)
    (hb : (jsTruthy st.currentRestaurant &&
      (st.currentRestaurant != some item.restaurant_id)) = false)
    (hex : (st.cart.any (fun x => x.food_item_id == item.id)) = false) :
    addToCart st item q =
      ⟨st.cart ++ [⟨item.id, q, item.name, item.price, item.restaurant_id⟩],
        some item.restaurant_id⟩ := by
  unfold addToCart
  rw [hb]
  show (⟨if st.cart.any (fun x => x.food_item_id == item.id) then _ else _, _⟩ : CartState) = _
  rw [hex]
  rfl

/-- In a consistent state, when the clearing guard is false every stored
line already belongs to the restaurant of the incoming item. -/
theorem noclear_same_restaurant (st : CartState) (item : FoodItem)
    (hst : cartConsistent st)
    (hb : (jsTruthy st.currentRestaurant &&
      (st.currentRestaurant != some item.restaurant_id)) = false) :
    ∀ l ∈ st.cart, l.restaurant_id = item.restaurant_id := by
  obtain ⟨hlines, hcr⟩ := hst
  cases hcr2 : st.currentRestaurant with
  | none =>
      intro l hl
      have h2 := hlines l hl
      rw [hcr2] at h2
      cases h2
  | some r =>
      have hr : r ≠ "" := fun he => hcr (by rw [hcr2, he])
      have htr : jsTruthy st.currentRestaurant = true := by
        rw [hcr2]
        simpa [jsTruthy] using hr
      rw [htr, Bool.true_and] at hb
      have hb2 : st.currentRestaurant = some item.restaurant_id := by
        by_contra hne2
        rw [bne_iff_ne.mpr hne2] at hb
        cases hb
      rw [hcr2] at hb2
      intro l hl
      have h2 := hlines l hl
      rw [hcr2] at h2
      have h3 : l.restaurant_id = r := Option.some.inj h2
      rw [h3]
      exact Option.some.inj hb2

/-- Adding an item with a non-empty restaurant id preserves the
strengthened invariant. -/
theorem addToCart_consistent (st : CartState) (item : FoodItem) (q : Int)
    (hst : cartConsistent st) (hitem : item.restaurant_id ≠ "") :
    cartConsistent (addToCart st item q) := by
  have hall : ∀ l ∈ (addToCart st item q).cart,
      l.restaurant_id = item.restaurant_id := by
    rcases Bool.eq_false_or_eq_true (jsTruthy st.currentRestaurant &&
        (st.currentRestaurant != some item.restaurant_id)) with hb | hb
    · rw [addToCart_clear_case st item q hb]
      intro l hl
      rw [List.mem_singleton.mp hl]
    · have hsame := noclear_same_restaurant st item hst hb
      rcases Bool.eq_false_or_eq_true
          (st.cart.any (fun x => x.food_item_id == item.id)) with hex | hex
      · rw [addToCart_existing_case st item q hb hex]
        intro l hl
        obtain ⟨x, hx, rfl⟩ := List.mem_map.mp hl
        rcases Bool.eq_false_or_eq_true (x.food_item_id == item.id) with hid | hid
        · rw [hid]
          exact hsame x hx
        · rw [hid]
          exact hsame x hx
      · rw [addToCart_append_case st item q hb hex]
        intro l hl
        rcases List.mem_append.mp hl with h1 | h1
        · exact hsame l h1
        · rw [List.mem_singleton.mp h1]
  have hnewcr : (addToCart st item q).currentRestaurant = some item.restaurant_id := rfl
  constructor
  · intro l hl
    rw [hnewcr, hall l hl]
  · rw [hnewcr]
    intro h
    exact hitem (Option.some.inj h)

/-- The initial cart state is consistent. -/
theorem initialCartState_consistent : cartConsistent initialCartState :=
  ⟨fun l hl => absurd hl (List.not_mem_nil l), fun h => Option.noConfusion h⟩

/-- Folding addToCart over any consistent start state with non-empty
restaurant ids keeps the invariant. -/
theorem foldl_addToCart_consistent :
    ∀ (ops : List (FoodItem × Int)) (st : CartState), cartConsistent st →
      (∀ p ∈ ops, p.1.restaurant_id ≠ "") →
      cartConsistent (ops.foldl (fun st p => addToCart st p.1 p.2) st) := by
  intro ops
  induction ops with
  | nil => intro st h _; simpa using h
  | cons p rest ih =>
      intro st h hops
      rw [List.foldl_cons]
      exact ih _ (addToCart_consistent st p.1 p.2 h (hops p (List.mem_cons_self p rest)))
        (fun x hx => hops x (List.mem_cons_of_mem p hx))

/-- Adding an item whose restaurant differs from a truthy current
restaurant clears everything and leaves the single new line. -/
theorem addToCart_other_restaurant (st : CartState) (item : FoodItem) (q : Int)
    (r : String) (hcr : st.currentRestaurant = some r) (hr : r ≠ "")
    (hne : item.restaurant_id ≠ r) :
    (addToCart st item q).cart =
      [⟨item.id, q, item.name, item.price, item.restaurant_id⟩] := by
  have hb : (jsTruthy st.currentRestaurant &&
      (st.currentRestaurant != some item.restaurant_id)) = true := by
    rw [hcr]
    show ((r != "") && (some r != some item.restaurant_id)) = true
    simp only [Bool.and_eq_true, bne_iff_ne, ne_eq]
    exact ⟨hr, fun h => hne (Option.some.inj h).symm⟩
  rw [addToCart_clear_case st item q hb]

/-- First item of the counterexample: its restaurant id is the empty
string, which is falsy in the guard of App.js line 57. -/
def itemEmptyRid : FoodItem := ⟨1, "a", 1, ""⟩

/-- Second item of the counterexample, from restaurant R2. -/
def itemR2 : FoodItem := ⟨3, "b", 7, "R2"⟩

/-- The cart after adding the empty-restaurant item and then the R2 item to
the empty cart. -/
def cexCart : CartState := addToCart (addToCart initialCartState itemEmptyRid 1) itemR2 1

/-- Counterexample to claim C2 as stated: after the two addToCart calls the
cart holds two lines owned by different restaurants, and the first line
does not match the current-restaurant reference.  The guard of App.js line
57 tests JavaScript truthiness of currentRestaurant, and the empty string
is falsy, so the clearing step is skipped. -/
theorem C2_single_restaurant_cex :
    cexCart.cart.map (fun l => l.restaurant_id) = ["", "R2"] ∧
    cexCart.currentRestaurant = some "R2" ∧
    ¬ ∀ l ∈ cexCart.cart, some l.restaurant_id = cexCart.currentRestaurant := by
  refine ⟨rfl, rfl, ?_⟩
  intro h
  have h1 := h ⟨1, 1, "a", 1, ""⟩ (by decide)
  exact absurd (by injection h1) (by decide : ("" : String) ≠ "R2")

/-- Claim C2 (amended): for every sequence of addToCart calls starting from
the empty cart in which every item carries a non-empty restaurant id, after
each call all lines of the cart share one owning restaurant id, namely the
current-restaurant reference; and adding an item whose restaurant differs
from a (non-empty) current restaurant leaves exactly one line, for the new
item. -/
theorem C2_single_restaurant (ops : List (FoodItem × Int))
    (hops : ∀ p ∈ ops, p.1.restaurant_id ≠ "") :
    (∀ l ∈ (applyAdds ops).cart,
      some l.restaurant_id = (applyAdds ops).currentRestaurant) ∧
    (∀ (st : CartState) (item : FoodItem) (q : Int) (r : String),
      st.currentRestaurant = some r → r ≠ "" → item.restaurant_id ≠ r →
      (addToCart st item q).cart =
        [⟨item.id, q, item.name, item.price, item.restaurant_id⟩]) :=
  ⟨(foldl_addToCart_consistent ops initialCartState initialCartState_consistent hops).1,
   fun st item q r hcr hr hne => addToCart_other_restaurant st item q r hcr hr hne⟩

/-- A concrete two-add sequence within one restaurant. -/
def opsR1 : List (FoodItem × Int) := [(⟨1, "a", 10, "R1"⟩, 1), (⟨2, "b", 5, "R1"⟩, 2)]

/-- A cart holding one line for restaurant R1. -/
def cartR1 : CartState := ⟨[⟨1, 2, "Pizza", 10, "R1"⟩], some "R1"⟩

/-- Witness for C2: the invariant after the concrete sequence, and scenario
B, where adding the R2 item to an R1 cart leaves exactly the new line. -/
theorem C2_single_restaurant_witness :
    (∀ l ∈ (applyAdds opsR1).cart,
      some l.restaurant_id = (applyAdds opsR1).currentRestaurant) ∧
    (addToCart cartR1 itemR2 1).cart = [⟨3, 1, "b", 7, "R2"⟩] :=
  ⟨(C2_single_restaurant opsR1 (by decide)).1,
   (C2_single_restaurant opsR1 (by decide)).2 cartR1 itemR2 1 "R1" rfl (by decide) (by decide)⟩

/-- Claim C7: updateQuantity with a quantity of at most 0 produces exactly
the state removeFromCart produces, and with a positive quantity it sets the
matching line to exactly that quantity, not additively, leaving every other
line and the current restaurant unchanged. -/
theorem C7_updateQuantity_spec (st : CartState) (foodItemId : Nat) (q : Int) :
    (q ≤ 0 → updateQuantity st foodItemId q = removeFromCart st foodItemId) ∧
    (0 < q → updateQuantity st foodItemId q =
      ⟨st.cart.map (fun item =>
          if item.food_item_id == foodItemId then { item with quantity := q } else item),
        st.currentRestaurant⟩) := by
  constructor
  · intro h
    unfold updateQuantity
    rw [if_pos h]
  · intro h
    unfold updateQuantity
    rw [if_neg (by omega)]

/-- Witness for C7 on a one-line cart: quantity minus 1 removes the line
just as removeFromCart would, and quantity 5 overwrites the stored 2. -/
theorem C7_updateQuantity_witness :
    updateQuantity cartR1 1 (-1) = removeFromCart cartR1 1 ∧
    updateQuantity cartR1 1 5 = ⟨[⟨1, 5, "Pizza", 10, "R1"⟩], some "R1"⟩ := by
  refine ⟨(C7_updateQuantity_spec cartR1 1 (-1)).1 (by decide), ?_⟩
  rw [(C7_updateQuantity_spec cartR1 1 5).2 (by decide)]
  decide

/-- Claim C9: removeFromCart and updateQuantity never modify the
current-restaurant reference (in particular, removing the last remaining
line leaves it set to the former restaurant); clearCart resets it to none;
and addToCart always sets it to the restaurant of the added item, never to
none — so clearCart is the only cart operation producing none. -/
theorem C9_currentRestaurant_frame (st : CartState) (foodItemId : Nat) (q : Int)
    (item : FoodItem) (addQty : Int) :
    (removeFromCart st foodItemId).currentRestaurant = st.currentRestaurant ∧
    (updateQuantity st foodItemId q).currentRestaurant = st.currentRestaurant ∧
    (clearCart st).currentRestaurant = none ∧
    (addToCart st item addQty).currentRestaurant = some item.restaurant_id ∧
    (addToCart st item addQty).currentRestaurant ≠ none := by
  refine ⟨rfl, ?_, rfl, rfl, fun h => Option.noConfusion h⟩
  unfold updateQuantity
  split
  · rfl
  · rfl

/-- Claim C10: adding an item whose id already has a line in the cart of
the same restaurant only increments the quantity of that line; the stored
name and price of every line are kept, so the name and price carried by the
newly passed item are ignored, and every other line is untouched. -/
theorem C10_addToCart_existing (st : CartState) (foodItem : FoodItem) (q : Int)
    (hr : st.currentRestaurant = some foodItem.restaurant_id)
    (hmem : (st.cart.any (fun item => item.food_item_id == foodItem.id)) = true) :
    addToCart st foodItem q =
      ⟨st.cart.map (fun item =>
          if item.food_item_id == foodItem.id then
            { item with quantity := item.quantity + q }
          else item),
        some foodItem.restaurant_id⟩ := by
  have hclear : (jsTruthy st.currentRestaurant &&
      (st.currentRestaurant != some foodItem.restaurant_id)) = false := by
    rw [hr]
    simp
  unfold addToCart
  simp only [hclear, Bool.false_eq_true, if_false, hmem, if_true]

/-- The same item id as the stored Pizza line but with a different name and
price. -/
def itemRenamed : FoodItem := ⟨1, "Renamed", 99, "R1"⟩

/-- Witness for C10: adding the renamed, repriced item increments the
stored line from quantity 2 to 3 and keeps the stored name Pizza and price
10. -/
theorem C10_addToCart_existing_witness :
    addToCart cartR1 itemRenamed 1 = ⟨[⟨1, 3, "Pizza", 10, "R1"⟩], some "R1"⟩ := by
  rw [C10_addToCart_existing cartR1 itemRenamed 1 rfl (by decide)]
  decide

/-! ## Checkout and restore claims -/

/-- Claim C8: submitting checkout with an address that trims to the empty
string is rejected before any network call: no order-creation or
payment-session request is issued and the cart state is returned
unchanged, whatever the backend would have answered. -/
theorem C8_empty_address_rejected (address user_id : String) (st : CartState)
    (orderResp checkoutResp : Except Unit String) (h : jsTrim address = "") :
    (handleCheckout address user_id st orderResp checkoutResp).1.sentRequests = [] ∧
    (handleCheckout address user_id st orderResp checkoutResp).1 =
      .rejectedNoAddress ∧
    (handleCheckout address user_id st orderResp checkoutResp).2 = st := by
  unfold handleCheckout
  simp [h, CheckoutEffect.sentRequests]

/-- Witness for C8 at a whitespace-only address with a backend that would
have accepted everything. -/
theorem C8_empty_address_rejected_witness :
    (handleCheckout "  " "u1" cartR1 (Except.ok "o1") (Except.ok "url")).1.sentRequests
        = [] ∧
    (handleCheckout "  " "u1" cartR1 (Except.ok "o1") (Except.ok "url")).1 =
      .rejectedNoAddress ∧
    (handleCheckout "  " "u1" cartR1 (Except.ok "o1") (Except.ok "url")).2 = cartR1 :=
  C8_empty_address_rejected "  " "u1" cartR1 (Except.ok "o1") (Except.ok "url") (by decide)

/-- Claim C5 (failing-input evaluation): restore does not treat every
malformed persisted value as absent.  Absent data and the empty string do
leave the user unset, but a non-deserializable persisted value makes the
unguarded JSON.parse of App.js line 19 throw, and the exception escapes the
effect to the caller. -/
theorem C5_restore_throws_on_malformed :
    restore none = .ok none ∧
    restore (some "") = .ok none ∧
    restore (some "!!!") = .thrown :=
  ⟨rfl, rfl, rfl⟩

end FoodApp
